import Mathlib

/-!
Verification development for the chessboard rice-doubling application
(`src/app.py`).  The Python functions are shallowly embedded in Lean:

* Python integers are arbitrary precision and `2 ** k` returns an exact
  integer for `k ≥ 0` and a float `2⁻ᵏ` for `k < 0`; all numeric values the
  claims touch are exactly representable, so numbers are modelled as `ℚ`
  (with `ℤ`-powers, `zpow`, mirroring `2 ** (k : int)`).
* Fixed-point string formatting (Python `format` specs `,.0f` and `.2f`,
  which round half-to-even on the exact value) is modelled by executable
  string-building functions.
* `np.log10` is modelled by `Real.logb 10`.
-/

/-- Embeds `calculate_grains` (src/app.py lines 7-9):
`return 2 ** (square - 1)`.  Exact for any exponent sign. -/
def calculate_grains (square : ℤ) : ℚ := (2 : ℚ) ^ (square - 1)

/-- Embeds `calculate_total` (src/app.py lines 11-13):
`return 2 ** up_to_square - 1`. -/
def calculate_total (up_to_square : ℤ) : ℚ := (2 : ℚ) ^ up_to_square - 1

/-- Round a rational to the nearest integer, ties to even — the rounding CPython
applies when rendering an exact value with a fixed number of decimals. -/
def roundHalfEven (q : ℚ) : ℤ :=
  let f := ⌊q⌋
  let r := q - (f : ℚ)
  if r < 1 / 2 then f
  else if 1 / 2 < r then f + 1
  else if f % 2 = 0 then f else f + 1

/-- Split a (reversed-digit) character list into groups of three, used for
thousands grouping. -/
def chunk3 (l : List Char) : List (List Char) :=
  match l with
  | a :: b :: c :: rest => [a, b, c] :: chunk3 rest
  | [] => []
  | l => [l]

/-- Decimal digits of a natural number grouped in threes with commas,
as produced by Python format spec `,d` / the integer part of `,.0f`. -/
def group_digits (n : ℕ) : String :=
  String.mk (List.intercalate [','] ((chunk3 (Nat.toDigits 10 n).reverse).map List.reverse).reverse)

/-- Thousands-grouped rendering of an integer. -/
def comma_int (i : ℤ) : String :=
  if i < 0 then "-" ++ group_digits i.natAbs else group_digits i.toNat

/-- Python format spec `,.0f` applied to an exact value: round half-to-even to
an integer, then thousands-group. -/
def comma0 (q : ℚ) : String := comma_int (roundHalfEven q)

/-- Python format spec `.2f` applied to an exact value: round half-to-even at
two decimals and render with exactly two decimal digits. -/
def fixed2 (q : ℚ) : String :=
  let c := roundHalfEven (q * 100)
  let sign := if c < 0 then "-" else ""
  let m := c.natAbs
  let ip := m / 100
  let fp := m % 100
  sign ++ toString ip ++ "." ++ (if fp < 10 then "0" ++ toString fp else toString fp)

/-- Embeds `format_number` (src/app.py lines 15-26): the five-way magnitude
bracket chain with strict upper bounds `1e6`, `1e9`, `1e12`, `1e15` and
suffixes `M`, `B`, `T`, `Q`. -/
def format_number (num : ℚ) : String :=
  if num < 1000000 then comma0 num
  else if num < 1000000000 then fixed2 (num / 1000000) ++ "M"
  else if num < 1000000000000 then fixed2 (num / 1000000000) ++ "B"
  else if num < 1000000000000000 then fixed2 (num / 1000000000000) ++ "T"
  else fixed2 (num / 1000000000000000) ++ "Q"

/-- Embeds the `squares` list shared by `create_exponential_growth_chart`
(line 76) and `create_cumulative_chart` (line 121):
`list(range(1, min(current_square + 1, 65)))`. -/
def chart_squares (current_square : ℤ) : List ℤ :=
  (List.range (min (current_square + 1) 65 - 1).toNat).map (fun (k : ℕ) => (k : ℤ) + 1)

/-- Embeds `grains = [calculate_grains(s) for s in squares]` (line 77). -/
def growth_grains (current_square : ℤ) : List ℚ :=
  (chart_squares current_square).map calculate_grains

/-- Embeds `cumulative = [calculate_total(s) for s in squares]` (line 122). -/
def cumulative_totals (current_square : ℤ) : List ℚ :=
  (chart_squares current_square).map calculate_total

/-- Embeds the `comparisons` dict of `create_comparison_chart`
(src/app.py lines 164-170); the five float literals `8e9`, `3.15e13`,
`7.5e18`, `1.844674407e19`, `1e24` are exact decimal values. -/
def comparisons : List (String × ℚ) :=
  [("World Population\n(8 billion)", 8000000000),
   ("Seconds in\n1 million years", 31500000000000),
   ("Grains of sand\non Earth", 7500000000000000000),
   ("Total Rice Grains\n(64 squares)", 18446744070000000000),
   ("Stars in\nobservable universe", 1000000000000000000000000)]

/-- Embeds the `board` matrix filled by `create_chessboard_heatmap`
(src/app.py lines 31-39): `board = np.zeros((8, 8))`, then for each cell
`(i, j)` with `square_num = i * 8 + j + 1`, the cell is set to
`np.log10(calculate_grains(square_num) + 1)` when `square_num <= current_square`
and keeps its initial value 0 otherwise. -/
noncomputable def chessboard_log_grid (current_square : ℤ) (i j : Fin 8) : ℝ :=
  if ((i.val * 8 + j.val + 1 : ℕ) : ℤ) ≤ current_square then
    Real.logb 10 ((calculate_grains ((i.val * 8 + j.val + 1 : ℕ) : ℤ) : ℝ) + 1)
  else 0

/-- Fixed text of the `stats` f-string before the `square_num` interpolation (src/app.py lines 209-216). -/
def stats_seg0 : String :=
  "\n    <div style=\"background: linear-gradient(135deg, #667eea 0%, #764ba2 100%); padding: 20px; border-radius: 15px; color: white; box-shadow: 0 8px 32px rgba(0,0,0,0.2);\">\n        <h2 style=\"margin-top: 0; text-align: center; font-weight: 700;\">📊 Current Statistics</h2>\n        \n        <div style=\"display: flex; justify-content: space-around; margin: 20px 0;\">\n            <div style=\"text-align: center;\">\n                <div style=\"font-size: 1.2em; opacity: 0.9;\">Square Number</div>\n                <div style=\"font-size: 2.5em; font-weight: bold;\">"

/-- Fixed text between the `square_num` and `format_number(current_grains)` interpolations (lines 216-220). -/
def stats_seg1 : String :=
  "<span style=\"font-size: 1.2em;\">/64</span></div>\n            </div>\n            <div style=\"text-align: center;\">\n                <div style=\"font-size: 1.2em; opacity: 0.9;\">Grains on This Square</div>\n                <div style=\"font-size: 2.5em; font-weight: bold; color: #fbbf24;\">"

/-- Fixed text between the grains and total interpolations (lines 220-224). -/
def stats_seg2 : String :=
  "</div>\n            </div>\n            <div style=\"text-align: center;\">\n                <div style=\"font-size: 1.2em; opacity: 0.9;\">Total Grains So Far</div>\n                <div style=\"font-size: 2.5em; font-weight: bold; color: #c084fc;\">"

/-- Fixed text after the total interpolation, up to the closing of the f-string (lines 224-231). -/
def stats_seg3 : String :=
  "</div>\n            </div>\n        </div>\n        \n        <hr style=\"border: 0; border-top: 1px solid rgba(255,255,255,0.3); margin: 20px 0;\">\n        \n        <h3 style=\"text-align: center; margin-bottom: 15px;\">🌾 Real-World Context</h3>\n    "

/-- Fixed head of the context blocks for squares up to 20 (lines 235 and 237). -/
def ctx_at_square : String :=
  "<p style=\x27text-align: center; font-size: 1.1em;\x27>At square "

/-- Fixed middle of the context blocks for squares up to 20. -/
def ctx_we_have : String :=
  ", we have "

/-- Fixed tail of the context block for squares up to 10 (line 235). -/
def ctx_manageable_tail : String :=
  " grains - still manageable amounts!</p>"

/-- Fixed tail of the context block for squares 11-20 (line 237). -/
def ctx_significant_tail : String :=
  " grains per square - this is getting significant!</p>"

/-- Fixed head of the weight context block for squares 21-30 (line 240). -/
def ctx_weight_head : String :=
  "<p style=\x27text-align: center; font-size: 1.1em;\x27>Total weight so far: ~"

/-- Fixed middle of the weight context block. -/
def ctx_kg_open : String :=
  " kg ("

/-- Fixed tail of the weight context block. -/
def ctx_tons_tail : String :=
  " metric tons!)</p>"

/-- Fixed head of the context block for squares above 30 (line 242). -/
def ctx_astro_head : String :=
  "<p style=\x27text-align: center; font-size: 1.1em;\x27>The numbers are now astronomically large! Current square alone: "

/-- Fixed tail of the context block for squares above 30. -/
def ctx_astro_tail : String :=
  " grains</p>"

/-- Closing tag appended last (line 256). -/
def div_close : String :=
  "</div>"

/-!
Fixed 25-character boundary pieces of the segments above (`*_lead` is the
first 25 characters of a segment, `*_edge` the last 25), used to state the
short boundary windows through which a substring occurrence could cross a
segment boundary.  Each is related to its segment by a proved equation below.
-/

def seg0_edge : String :=
  "5em; font-weight: bold;\">"

def seg1_lead : String :=
  "<span style=\"font-size: 1"

def seg1_edge : String :=
  ": bold; color: #fbbf24;\">"

def seg2_lead : String :=
  "</div>\n            </div>"

def seg2_edge : String :=
  ": bold; color: #c084fc;\">"

def seg3_lead : String :=
  "</div>\n            </div>"

def seg3_edge : String :=
  "l-World Context</h3>\n    "

def at_square_lead : String :=
  "<p style=\x27text-align: cen"

def at_square_edge : String :=
  "-size: 1.1em;\x27>At square "

def weight_head_lead : String :=
  "<p style=\x27text-align: cen"

def weight_head_edge : String :=
  ";\x27>Total weight so far: ~"

def astro_head_lead : String :=
  "<p style=\x27text-align: cen"

def astro_head_edge : String :=
  "e! Current square alone: "

def mng_tail_lead : String :=
  " grains - still manageabl"

def mng_tail_edge : String :=
  "l manageable amounts!</p>"

def sig_tail_lead : String :=
  " grains per square - this"

def sig_tail_edge : String :=
  " getting significant!</p>"

/-- Embeds the `stats` f-string of `update_visualization` (src/app.py lines
209-231): the fixed segments with the three interpolations `square_num`,
`format_number(current_grains)`, `format_number(total_grains)` where
`current_grains = calculate_grains(square_num)` and
`total_grains = calculate_total(square_num)` (lines 205-206). -/
def stats_header (square_num : ℤ) : String :=
  stats_seg0 ++ toString square_num ++
  stats_seg1 ++ format_number (calculate_grains square_num) ++
  stats_seg2 ++ format_number (calculate_total square_num) ++
  stats_seg3

/-- Context block appended for `square_num <= 10` (src/app.py line 235). -/
def context_manageable (square_num : ℤ) : String :=
  ctx_at_square ++ toString square_num ++ ctx_we_have ++
  format_number (calculate_grains square_num) ++ ctx_manageable_tail

/-- Context block appended for `10 < square_num <= 20` (src/app.py line 237). -/
def context_significant (square_num : ℤ) : String :=
  ctx_at_square ++ toString square_num ++ ctx_we_have ++
  format_number (calculate_grains square_num) ++ ctx_significant_tail

/-- Context block appended for `20 < square_num <= 30` (src/app.py lines
239-240); the float literal `0.00002` (≈20 mg per grain) is modelled by the
exact `2/100000` (the rendered strings agree with the float computation at
these magnitudes). -/
def context_weight (square_num : ℤ) : String :=
  let weight_kg := calculate_total square_num * (2 / 100000)
  ctx_weight_head ++ format_number weight_kg ++ ctx_kg_open ++
  format_number (weight_kg / 1000) ++ ctx_tons_tail

/-- Context block appended for `square_num > 30` (src/app.py line 242). -/
def context_astronomical (square_num : ℤ) : String :=
  ctx_astro_head ++ format_number (calculate_grains square_num) ++ ctx_astro_tail

/-- The additional block appended only when `square_num == 64`
(src/app.py lines 245-254), holding the literal complete-board total. -/
def complete_board_block : String :=
  "\n        <div style=\"background: rgba(0,0,0,0.2); padding: 15px; border-radius: 10px; margin-top: 15px;\">\n            <h3 style=\"text-align: center; margin-top: 0; color: #fbbf24;\">🏆 Complete Board!</h3>\n            <p style=\"text-align: center; font-size: 1.2em;\">\n                <strong>Total: 18,446,744,073,709,551,615 grains</strong><br>\n                Weight: ~461 billion metric tons<br>\n                More than 1,000 years of global rice production!\n            </p>\n        </div>\n        "

/-- Embeds the complete `stats` HTML summary string returned by
`update_visualization` (src/app.py lines 203-256): header, one
threshold-selected context block, the square-64-only block, and the closing
tag. -/
def update_visualization_stats (square_num : ℤ) : String :=
  stats_header square_num ++
  (if square_num ≤ 10 then context_manageable square_num
   else if square_num ≤ 20 then context_significant square_num
   else if square_num ≤ 30 then context_weight square_num
   else context_astronomical square_num) ++
  (if square_num = 64 then complete_board_block else "") ++
  div_close

/-- The literal complete-board total named by the spec. -/
def total_literal : String := "18,446,744,073,709,551,615"

/-- Prefix test on character lists, written with a bare `List.rec` so that
kernel reduction takes one small step per character. -/
def charsPrefix (pat : List Char) : List Char → Bool :=
  @List.rec Char (fun _ => List Char → Bool)
    (fun _ => true)
    (fun p _ps r hay =>
      match hay with
      | [] => false
      | c :: t => (p == c) && r t)
    pat

/-- Naive substring occurrence test: does `pat` occur contiguously in the
list?  Written with a bare `List.rec` for cheap kernel reduction. -/
def contains_from (pat : List Char) : List Char → Bool :=
  @List.rec Char (fun _ => Bool)
    pat.isEmpty
    (fun c t r => charsPrefix pat (c :: t) || r)

/-- Does the complete-board total literal occur in `s`? -/
def contains_total_literal (s : String) : Bool :=
  contains_from total_literal.toList s.toList

/-- The last `k` characters of a character list. -/
def lastN (k : ℕ) (l : List Char) : List Char := l.drop (l.length - k)

/-- Per-index boundary-window checks for the summary of a square in the
`n ≤ 10` tier: the literal must not occur in any window where it could cross a
segment boundary, and the interpolated pieces must be shorter than it. -/
def mng_checks (n : ℤ) : Bool :=
  let a := (toString n).toList
  let g := (format_number (calculate_grains n)).toList
  let t := (format_number (calculate_total n)).toList
  let lit := total_literal.toList
  !(contains_from lit ((seg0_edge.toList ++ a) ++ seg1_lead.toList)) &&
  !(contains_from lit ((seg1_edge.toList ++ g) ++ seg2_lead.toList)) &&
  !(contains_from lit ((seg2_edge.toList ++ t) ++ seg3_lead.toList)) &&
  !(contains_from lit ((at_square_edge.toList ++ a) ++
      (ctx_we_have.toList ++ (g ++ (ctx_manageable_tail.toList ++ div_close.toList))))) &&
  !(contains_from lit ((ctx_we_have.toList ++ g) ++
      (ctx_manageable_tail.toList ++ div_close.toList))) &&
  decide (a.length ≤ 25) && decide (g.length ≤ 25) && decide (t.length ≤ 25)

/-- Boundary-window checks for the `10 < n ≤ 20` tier. -/
def sig_checks (n : ℤ) : Bool :=
  let a := (toString n).toList
  let g := (format_number (calculate_grains n)).toList
  let t := (format_number (calculate_total n)).toList
  let lit := total_literal.toList
  !(contains_from lit ((seg0_edge.toList ++ a) ++ seg1_lead.toList)) &&
  !(contains_from lit ((seg1_edge.toList ++ g) ++ seg2_lead.toList)) &&
  !(contains_from lit ((seg2_edge.toList ++ t) ++ seg3_lead.toList)) &&
  !(contains_from lit ((at_square_edge.toList ++ a) ++
      (ctx_we_have.toList ++ (g ++ (ctx_significant_tail.toList ++ div_close.toList))))) &&
  !(contains_from lit ((ctx_we_have.toList ++ g) ++
      (ctx_significant_tail.toList ++ div_close.toList))) &&
  decide (a.length ≤ 25) && decide (g.length ≤ 25) && decide (t.length ≤ 25)

/-- Boundary-window checks for the `20 < n ≤ 30` tier. -/
def wgt_checks (n : ℤ) : Bool :=
  let a := (toString n).toList
  let g := (format_number (calculate_grains n)).toList
  let t := (format_number (calculate_total n)).toList
  let w1 := (format_number (calculate_total n * (2 / 100000))).toList
  let w2 := (format_number (calculate_total n * (2 / 100000) / 1000)).toList
  let lit := total_literal.toList
  !(contains_from lit ((seg0_edge.toList ++ a) ++ seg1_lead.toList)) &&
  !(contains_from lit ((seg1_edge.toList ++ g) ++ seg2_lead.toList)) &&
  !(contains_from lit ((seg2_edge.toList ++ t) ++ seg3_lead.toList)) &&
  !(contains_from lit ((weight_head_edge.toList ++ w1) ++
      (ctx_kg_open.toList ++ (w2 ++ (ctx_tons_tail.toList ++ div_close.toList))))) &&
  !(contains_from lit ((ctx_kg_open.toList ++ w2) ++
      (ctx_tons_tail.toList ++ div_close.toList))) &&
  decide (a.length ≤ 25) && decide (g.length ≤ 25) && decide (t.length ≤ 25) &&
  decide (w1.length ≤ 25) && decide (w2.length ≤ 25)

/-- Boundary-window checks for the `30 < n` tier (square 64 excluded: there the
complete-board block is appended and the literal is present). -/
def astro_checks (n : ℤ) : Bool :=
  let a := (toString n).toList
  let g := (format_number (calculate_grains n)).toList
  let t := (format_number (calculate_total n)).toList
  let lit := total_literal.toList
  !(contains_from lit ((seg0_edge.toList ++ a) ++ seg1_lead.toList)) &&
  !(contains_from lit ((seg1_edge.toList ++ g) ++ seg2_lead.toList)) &&
  !(contains_from lit ((seg2_edge.toList ++ t) ++ seg3_lead.toList)) &&
  !(contains_from lit ((astro_head_edge.toList ++ g) ++
      (ctx_astro_tail.toList ++ div_close.toList))) &&
  decide (a.length ≤ 25) && decide (g.length ≤ 25) && decide (t.length ≤ 25)

lemma two_zpow_succ (n : ℤ) : (2 : ℚ) ^ n = 2 * (2 : ℚ) ^ (n - 1) := by
  conv_lhs => rw [show n = n - 1 + 1 by ring]
  rw [zpow_add_one₀ (by norm_num : (2 : ℚ) ≠ 0) (n - 1)]
  ring

lemma two_zpow_toNat (n : ℤ) (h : 0 ≤ n) : (2 : ℚ) ^ n = ((2 ^ n.toNat : ℤ) : ℚ) := by
  conv_lhs => rw [show n = ((n.toNat : ℕ) : ℤ) by omega]
  rw [zpow_natCast]
  push_cast
  ring

/-- C1: for every `n` in `[1,64]`, `calculate_total n` is exactly the integer
`2 ^ n - 1` (no overflow/wraparound is possible: Python integers are exact, and
the embedding witnesses the value as an integer cast into `ℚ`); in particular
`calculate_total 64 = 18446744073709551615` exactly. -/
theorem calculate_total_exact_pow (n : ℤ) (h1 : 1 ≤ n) (h2 : n ≤ 64) :
    calculate_total n = ((2 ^ n.toNat - 1 : ℤ) : ℚ) ∧
    calculate_total 64 = ((18446744073709551615 : ℤ) : ℚ) := by
  constructor
  · rw [calculate_total, two_zpow_toNat n (by omega)]
    push_cast
    ring
  · rw [calculate_total, two_zpow_toNat 64 (by omega),
      show (64 : ℤ).toNat = 64 from rfl]
    norm_num

theorem calculate_total_exact_pow_witness :
    (1 : ℤ) ≤ 64 ∧ (64 : ℤ) ≤ 64 ∧
    (calculate_total 64 = ((2 ^ (64 : ℤ).toNat - 1 : ℤ) : ℚ) ∧
     calculate_total 64 = ((18446744073709551615 : ℤ) : ℚ)) :=
  ⟨by norm_num, by norm_num, calculate_total_exact_pow 64 (by norm_num) (by norm_num)⟩

/-- C2: for every `n` in `[1,64]`, `calculate_grains n` is exactly the integer
`2 ^ (n-1)` (exact integer, no floating approximation); in particular
`calculate_grains 1 = 1` and `calculate_grains 64 = 2 ^ 63`. -/
theorem calculate_grains_exact_pow (n : ℤ) (h1 : 1 ≤ n) (h2 : n ≤ 64) :
    calculate_grains n = ((2 ^ (n - 1).toNat : ℤ) : ℚ) ∧
    calculate_grains 1 = 1 ∧
    calculate_grains 64 = ((2 ^ 63 : ℤ) : ℚ) := by
  refine ⟨?_, ?_, ?_⟩
  · rw [calculate_grains, two_zpow_toNat (n - 1) (by omega)]
  · rw [calculate_grains]
    norm_num
  · rw [calculate_grains, show (64 : ℤ) - 1 = 63 by norm_num,
      two_zpow_toNat 63 (by omega), show (63 : ℤ).toNat = 63 from rfl]

theorem calculate_grains_exact_pow_witness :
    (1 : ℤ) ≤ 1 ∧ (1 : ℤ) ≤ 64 ∧
    (calculate_grains 1 = ((2 ^ ((1 : ℤ) - 1).toNat : ℤ) : ℚ) ∧
     calculate_grains 1 = 1 ∧
     calculate_grains 64 = ((2 ^ 63 : ℤ) : ℚ)) :=
  ⟨by norm_num, by norm_num, calculate_grains_exact_pow 1 (by norm_num) (by norm_num)⟩

/-- C7: the doubling recurrence `calculate_total n = 2 * calculate_total (n-1) + 1`
holds for `n` in `[2,64]` with base case `calculate_total 1 = 1`, and
`calculate_total n = calculate_grains (n+1) - 1` for `n` in `[1,63]`. -/
theorem calculate_total_recurrence :
    (∀ n : ℤ, 2 ≤ n → n ≤ 64 → calculate_total n = 2 * calculate_total (n - 1) + 1) ∧
    calculate_total 1 = 1 ∧
    (∀ n : ℤ, 1 ≤ n → n ≤ 63 → calculate_total n = calculate_grains (n + 1) - 1) := by
  refine ⟨fun n _ _ => ?_, ?_, fun n _ _ => ?_⟩
  · rw [calculate_total, calculate_total, two_zpow_succ n]
    ring
  · rw [calculate_total]
    norm_num
  · rw [calculate_total, calculate_grains]
    norm_num

theorem calculate_total_recurrence_witness :
    calculate_total 5 = 2 * calculate_total (5 - 1) + 1 ∧
    calculate_total 3 = calculate_grains (3 + 1) - 1 :=
  ⟨calculate_total_recurrence.1 5 (by norm_num) (by norm_num),
   calculate_total_recurrence.2.2 3 (by norm_num) (by norm_num)⟩

/-- C8: the comparison dataset is a fixed constant (its builder
`create_comparison_chart` takes no input, so it cannot depend on the selected
square and is identical across invocations): exactly 5 entries, in ascending
order by value, with the stated values. -/
theorem comparisons_fixed :
    comparisons.length = 5 ∧
    comparisons.map Prod.snd =
      [8000000000, 31500000000000, 7500000000000000000,
       18446744070000000000, 1000000000000000000000000] ∧
    List.Chain' (fun a b : String × ℚ => a.2 < b.2) comparisons := by
  refine ⟨rfl, rfl, ?_⟩
  rw [comparisons]
  refine List.chain'_cons.2 ⟨by norm_num, ?_⟩
  refine List.chain'_cons.2 ⟨by norm_num, ?_⟩
  refine List.chain'_cons.2 ⟨by norm_num, ?_⟩
  refine List.chain'_cons.2 ⟨by norm_num, ?_⟩
  simp

/-- C3: for every non-negative input `v`, `format_number` renders `v` as a
thousands-grouped integer string (the `comma0` embedding of Python `,.0f`)
when `v < 1e6`, as `v/1e6` at two decimals plus `M` when `1e6 ≤ v < 1e9`,
likewise `B`, `T` below `1e12`, `1e15`, and `Q` from `1e15` on; boundaries go
to the higher bracket (`format_number 1000000 = "1.00M"` while
`format_number 999999` is the suffix-free `"999,999"`), and
`format_number 512 = "512"`, `format_number 1023 = "1,023"`. -/
theorem format_number_brackets (v : ℚ) (_hv : 0 ≤ v) :
    (v < 1000000 → format_number v = comma0 v) ∧
    (1000000 ≤ v → v < 1000000000 → format_number v = fixed2 (v / 1000000) ++ "M") ∧
    (1000000000 ≤ v → v < 1000000000000 →
      format_number v = fixed2 (v / 1000000000) ++ "B") ∧
    (1000000000000 ≤ v → v < 1000000000000000 →
      format_number v = fixed2 (v / 1000000000000) ++ "T") ∧
    (1000000000000000 ≤ v → format_number v = fixed2 (v / 1000000000000000) ++ "Q") ∧
    format_number 1000000 = "1.00M" ∧
    format_number 999999 = "999,999" ∧
    format_number 512 = "512" ∧
    format_number 1023 = "1,023" := by
  refine ⟨fun h1 => ?_, fun h1 h2 => ?_, fun h1 h2 => ?_, fun h1 h2 => ?_, fun h1 => ?_,
    ?_, ?_, ?_, ?_⟩
  · rw [format_number, if_pos h1]
  · rw [format_number, if_neg (not_lt.2 h1), if_pos h2]
  · rw [format_number, if_neg (by linarith), if_neg (not_lt.2 h1), if_pos h2]
  · rw [format_number, if_neg (by linarith), if_neg (by linarith),
      if_neg (not_lt.2 h1), if_pos h2]
  · rw [format_number, if_neg (by linarith), if_neg (by linarith), if_neg (by linarith),
      if_neg (not_lt.2 h1)]
  · with_unfolding_all rfl
  · with_unfolding_all rfl
  · with_unfolding_all rfl
  · with_unfolding_all rfl

theorem format_number_brackets_witness :
    (0 : ℚ) ≤ 512 ∧
    (((512 : ℚ) < 1000000 → format_number 512 = comma0 512) ∧
     ((1000000 : ℚ) ≤ 512 → (512 : ℚ) < 1000000000 →
       format_number 512 = fixed2 (512 / 1000000) ++ "M") ∧
     ((1000000000 : ℚ) ≤ 512 → (512 : ℚ) < 1000000000000 →
       format_number 512 = fixed2 (512 / 1000000000) ++ "B") ∧
     ((1000000000000 : ℚ) ≤ 512 → (512 : ℚ) < 1000000000000000 →
       format_number 512 = fixed2 (512 / 1000000000000) ++ "T") ∧
     ((1000000000000000 : ℚ) ≤ 512 →
       format_number 512 = fixed2 (512 / 1000000000000000) ++ "Q") ∧
     format_number 1000000 = "1.00M" ∧
     format_number 999999 = "999,999" ∧
     format_number 512 = "512" ∧
     format_number 1023 = "1,023") :=
  ⟨by norm_num, format_number_brackets 512 (by norm_num)⟩

lemma total_eq_sum_grains (i : ℤ) (hi : 1 ≤ i) :
    calculate_total i = ∑ k in Finset.Icc (1 : ℤ) i, calculate_grains k := by
  refine @Int.le_induction
    (fun j => calculate_total j = ∑ k in Finset.Icc (1 : ℤ) j, calculate_grains k)
    1 ?_ ?_ i hi
  · show calculate_total 1 = ∑ k in Finset.Icc (1 : ℤ) 1, calculate_grains k
    rw [show Finset.Icc (1 : ℤ) 1 = {1} from Finset.Icc_self 1, Finset.sum_singleton,
      calculate_total, calculate_grains]
    norm_num
  · intro n hn ih
    have ih' : calculate_total n = ∑ k in Finset.Icc (1 : ℤ) n, calculate_grains k := ih
    show calculate_total (n + 1) = ∑ k in Finset.Icc (1 : ℤ) (n + 1), calculate_grains k
    have hins : Finset.Icc (1 : ℤ) (n + 1) = insert (n + 1) (Finset.Icc 1 n) := by
      ext x
      simp only [Finset.mem_Icc, Finset.mem_insert]
      omega
    rw [hins, Finset.sum_insert (by simp only [Finset.mem_Icc]; omega), ← ih',
      calculate_total, calculate_total, calculate_grains,
      zpow_add_one₀ (by norm_num : (2 : ℚ) ≠ 0) n]
    ring_nf

/-- C5: for every `upTo ≥ 1` the per-square and cumulative chart series built
from `list(range(1, min(upTo + 1, 65)))` have length `min upTo 64`, their
indices run `1..length` contiguously ascending, element `i` of the per-square
series is `calculate_grains i` and of the cumulative series `calculate_total i`,
and every cumulative value is the sum of the per-square values `1..i`. -/
theorem chart_series_consistent (upTo : ℤ) (h : 1 ≤ upTo) :
    (chart_squares upTo).length = (min upTo 64).toNat ∧
    (growth_grains upTo).length = (chart_squares upTo).length ∧
    (cumulative_totals upTo).length = (chart_squares upTo).length ∧
    (∀ i : ℕ, i < (chart_squares upTo).length →
      (chart_squares upTo).getD i 0 = (i : ℤ) + 1 ∧
      (growth_grains upTo).getD i 0 = calculate_grains ((i : ℤ) + 1) ∧
      (cumulative_totals upTo).getD i 0 = calculate_total ((i : ℤ) + 1)) ∧
    (∀ i : ℤ, 1 ≤ i → i ≤ ((chart_squares upTo).length : ℤ) →
      calculate_total i = ∑ k in Finset.Icc (1 : ℤ) i, calculate_grains k) := by
  have hlen : (chart_squares upTo).length = (min upTo 64).toNat := by
    rw [chart_squares, List.length_map, List.length_range]
    omega
  have hglen : (growth_grains upTo).length = (chart_squares upTo).length := by
    rw [growth_grains, List.length_map]
  have hclen : (cumulative_totals upTo).length = (chart_squares upTo).length := by
    rw [cumulative_totals, List.length_map]
  refine ⟨hlen, hglen, hclen, fun i hi => ?_, fun i hi _ => total_eq_sum_grains i hi⟩
  refine ⟨?_, ?_, ?_⟩
  · rw [List.getD_eq_getElem _ _ hi]
    simp [chart_squares]
  · rw [List.getD_eq_getElem _ _ (by rw [hglen]; exact hi)]
    simp [growth_grains, chart_squares]
  · rw [List.getD_eq_getElem _ _ (by rw [hclen]; exact hi)]
    simp [cumulative_totals, chart_squares]

theorem chart_series_consistent_witness :
    (1 : ℤ) ≤ 3 ∧
    ((chart_squares 3).length = (min (3 : ℤ) 64).toNat ∧
     (growth_grains 3).length = (chart_squares 3).length ∧
     (cumulative_totals 3).length = (chart_squares 3).length ∧
     (∀ i : ℕ, i < (chart_squares 3).length →
       (chart_squares 3).getD i 0 = (i : ℤ) + 1 ∧
       (growth_grains 3).getD i 0 = calculate_grains ((i : ℤ) + 1) ∧
       (cumulative_totals 3).getD i 0 = calculate_total ((i : ℤ) + 1)) ∧
     (∀ i : ℤ, 1 ≤ i → i ≤ ((chart_squares 3).length : ℤ) →
       calculate_total i = ∑ k in Finset.Icc (1 : ℤ) i, calculate_grains k)) :=
  ⟨by norm_num, chart_series_consistent 3 (by norm_num)⟩

/-- C6: for every `upTo` in `[1,64]` the 8×8 log grid holds, at cell `(i, j)`
representing square `i*8 + j + 1` (row-major, 0-indexed),
`log10(calculate_grains (i*8+j+1) + 1)` when the square is already reached and
exactly 0 otherwise; for `upTo = 1` the square-1 cell is the nonzero
`log10 2` and the other 63 cells are exactly 0. -/
theorem chessboard_log_grid_spec (upTo : ℤ) (_h1 : 1 ≤ upTo) (_h2 : upTo ≤ 64) :
    (∀ i j : Fin 8,
      chessboard_log_grid upTo i j =
        if ((i.val * 8 + j.val + 1 : ℕ) : ℤ) ≤ upTo then
          Real.logb 10 ((calculate_grains ((i.val * 8 + j.val + 1 : ℕ) : ℤ) : ℝ) + 1)
        else 0) ∧
    chessboard_log_grid 1 0 0 = Real.logb 10 2 ∧
    chessboard_log_grid 1 0 0 ≠ 0 ∧
    (∀ i j : Fin 8, ¬(i.val = 0 ∧ j.val = 0) → chessboard_log_grid 1 i j = 0) := by
  have hcell : chessboard_log_grid 1 0 0 = Real.logb 10 2 := by
    have hg : calculate_grains 1 = 1 := by
      rw [calculate_grains]
      norm_num
    rw [chessboard_log_grid]
    norm_num [hg]
  refine ⟨fun i j => rfl, hcell, ?_, fun i j hij => ?_⟩
  · rw [hcell]
    exact ne_of_gt (Real.logb_pos (by norm_num) (by norm_num))
  · rw [chessboard_log_grid, if_neg]
    have hi8 : i.val < 8 := i.isLt
    have hj8 : j.val < 8 := j.isLt
    omega

theorem chessboard_log_grid_spec_witness :
    (1 : ℤ) ≤ 1 ∧ (1 : ℤ) ≤ 64 ∧
    ((∀ i j : Fin 8,
       chessboard_log_grid 1 i j =
         if ((i.val * 8 + j.val + 1 : ℕ) : ℤ) ≤ 1 then
           Real.logb 10 ((calculate_grains ((i.val * 8 + j.val + 1 : ℕ) : ℤ) : ℝ) + 1)
         else 0) ∧
     chessboard_log_grid 1 0 0 = Real.logb 10 2 ∧
     chessboard_log_grid 1 0 0 ≠ 0 ∧
     (∀ i j : Fin 8, ¬(i.val = 0 ∧ j.val = 0) → chessboard_log_grid 1 i j = 0)) :=
  ⟨by norm_num, by norm_num, chessboard_log_grid_spec 1 (by norm_num) (by norm_num)⟩

lemma charsPrefix_nil (l : List Char) : charsPrefix [] l = true := rfl

lemma charsPrefix_cons_nil (x : Char) (ps : List Char) :
    charsPrefix (x :: ps) [] = false := rfl

lemma charsPrefix_cons_cons (x : Char) (ps : List Char) (c : Char) (t : List Char) :
    charsPrefix (x :: ps) (c :: t) = ((x == c) && charsPrefix ps t) := rfl

lemma contains_from_nil (p : List Char) : contains_from p [] = p.isEmpty := rfl

lemma contains_from_cons (p : List Char) (c : Char) (t : List Char) :
    contains_from p (c :: t) = (charsPrefix p (c :: t) || contains_from p t) := rfl

lemma charsPrefix_iff (p l : List Char) :
    charsPrefix p l = true ↔ ∃ t, l = p ++ t := by
  induction p generalizing l with
  | nil =>
    simp [charsPrefix_nil]
  | cons x ps ih =>
    cases l with
    | nil =>
      simp [charsPrefix_cons_nil]
    | cons c t =>
      rw [charsPrefix_cons_cons, Bool.and_eq_true, beq_iff_eq, ih]
      constructor
      · rintro ⟨rfl, u, rfl⟩
        exact ⟨u, rfl⟩
      · rintro ⟨u, h⟩
        injection h with h1 h2
        exact ⟨h1.symm, u, h2⟩

lemma contains_from_iff (p l : List Char) :
    contains_from p l = true ↔ ∃ u v, l = u ++ (p ++ v) := by
  induction l with
  | nil =>
    rw [contains_from_nil]
    constructor
    · intro h
      have hp : p = [] := by
        cases p with
        | nil => rfl
        | cons a b => simp [List.isEmpty] at h
      exact ⟨[], [], by simp [hp]⟩
    · rintro ⟨u, v, h⟩
      have : p = [] := by
        cases u <;> cases p <;> simp_all
      simp [this, List.isEmpty]
  | cons c t ih =>
    rw [contains_from_cons, Bool.or_eq_true, charsPrefix_iff, ih]
    constructor
    · rintro (⟨v, h⟩ | ⟨u, v, h⟩)
      · exact ⟨[], v, by simp [h]⟩
      · exact ⟨c :: u, v, by simp [h]⟩
    · rintro ⟨u, v, h⟩
      cases u with
      | nil => exact Or.inl ⟨v, by simpa using h⟩
      | cons c' u' =>
        injection h with h1 h2
        exact Or.inr ⟨u', v, h2⟩

lemma contains_from_length_le {p l : List Char} (h : contains_from p l = true) :
    p.length ≤ l.length := by
  obtain ⟨u, v, rfl⟩ := (contains_from_iff p l).1 h
  simp
  omega

lemma contains_from_eq_false_of_lt {p l : List Char} (h : l.length < p.length) :
    contains_from p l = false := by
  cases hc : contains_from p l with
  | false => rfl
  | true => exact absurd (contains_from_length_le hc) (by omega)

lemma contains_from_append_right {p B : List Char} (A : List Char)
    (h : contains_from p B = true) : contains_from p (A ++ B) = true := by
  obtain ⟨u, v, rfl⟩ := (contains_from_iff p B).1 h
  exact (contains_from_iff p _).2 ⟨A ++ u, v, by simp⟩

lemma contains_from_append_left {p A : List Char} (B : List Char)
    (h : contains_from p A = true) : contains_from p (A ++ B) = true := by
  obtain ⟨u, v, rfl⟩ := (contains_from_iff p A).1 h
  exact (contains_from_iff p _).2 ⟨u, v ++ B, by simp⟩

lemma contains_from_take_append (p X A B : List Char) (k : ℕ)
    (h : contains_from p (X ++ (A ++ B).take k) = true) :
    contains_from p (X ++ (A ++ B.take k)) = true := by
  rw [List.take_append_eq_append_take] at h
  rcases le_or_lt k A.length with hk | hk
  · have h1 : A.take k ++ B.take (k - A.length) = A.take k ++ B.take 0 := by
      rw [show k - A.length = 0 by omega]
    rw [h1] at h
    simp only [List.take_zero, List.append_nil] at h
    have : A ++ B.take k = A.take k ++ (A.drop k ++ B.take k) := by
      rw [← List.append_assoc, List.take_append_drop]
    rw [this, ← List.append_assoc]
    exact contains_from_append_left _ h
  · rw [List.take_of_length_le (by omega)] at h
    have h2 : B.take k = B.take (k - A.length) ++ ((B.take k).drop (k - A.length)) := by
      conv_lhs => rw [← List.take_append_drop (k - A.length) (B.take k)]
      rw [List.take_take, min_eq_left (by omega)]
    rw [h2, ← List.append_assoc, ← List.append_assoc]
    rw [← List.append_assoc] at h
    exact contains_from_append_left _ h

lemma contains_from_split {p : List Char} (A B : List Char) (hp : p ≠ [])
    (h : contains_from p (A ++ B) = true) :
    contains_from p A = true ∨
    contains_from p (lastN (p.length - 1) A ++ B.take (p.length - 1)) = true ∨
    contains_from p B = true := by
  obtain ⟨u, v, huv⟩ := (contains_from_iff p (A ++ B)).1 h
  have hplen : 0 < p.length := List.length_pos.2 hp
  rcases le_or_lt (u.length + p.length) A.length with hA | hA'
  · left
    have htake : A.take (u.length + p.length) = u ++ p := by
      have e1 : (A ++ B).take (u.length + p.length) = A.take (u.length + p.length) := by
        rw [List.take_append_eq_append_take]
        have h2 : u.length + p.length - A.length = 0 := by omega
        rw [h2]
        simp
      have e2 : (u ++ (p ++ v)).take (u.length + p.length) = u ++ p := by
        rw [List.take_append_eq_append_take]
        have h1 : u.take (u.length + p.length) = u := List.take_of_length_le (by omega)
        have h2 : u.length + p.length - u.length = p.length := by omega
        rw [h1, h2, List.take_append_eq_append_take, List.take_length]
        have h3 : p.length - p.length = 0 := by omega
        rw [h3]
        simp
      rw [← e1, huv, e2]
    refine (contains_from_iff p A).2 ⟨u, A.drop (u.length + p.length), ?_⟩
    conv_lhs => rw [← List.take_append_drop (u.length + p.length) A]
    rw [htake, List.append_assoc]
  · rcases le_or_lt A.length u.length with hB | hspan
    · right; right
      have e1 : (A ++ B).drop A.length = B := by
        simp [List.drop_append_eq_append_drop]
      have e2 : (u ++ (p ++ v)).drop A.length = u.drop A.length ++ (p ++ v) := by
        rw [List.drop_append_eq_append_drop, show A.length - u.length = 0 by omega]
        simp
      rw [huv, e2] at e1
      exact (contains_from_iff p B).2 ⟨u.drop A.length, v, e1.symm⟩
    · right; left
      set k := p.length - 1 with hk
      set s := A.length - k with hs
      have hsu : s ≤ u.length := by omega
      have hXlen : (A.drop u.length).length = A.length - u.length := by simp
      have hXk : A.length - u.length ≤ k := by omega
      have e0 : (A ++ B).drop u.length = A.drop u.length ++ B := by
        rw [List.drop_append_eq_append_drop, show u.length - A.length = 0 by omega]
        simp
      have e1 : p ++ v = A.drop u.length ++ B := by
        have : (u ++ (p ++ v)).drop u.length = p ++ v := by
          rw [List.drop_append_eq_append_drop, List.drop_length,
            show u.length - u.length = 0 by omega]
          simp
        rw [← this, ← huv, e0]
      have hp_pref : p = A.drop u.length ++ B.take (p.length - (A.length - u.length)) := by
        have t1 : (p ++ v).take p.length = p := by
          rw [List.take_append_eq_append_take, List.take_length]
          have h3 : p.length - p.length = 0 := by omega
          rw [h3]
          simp
        rw [e1] at t1
        rw [List.take_append_eq_append_take] at t1
        have h4 : (A.drop u.length).take p.length = A.drop u.length :=
          List.take_of_length_le (by rw [hXlen]; omega)
        rw [h4, hXlen] at t1
        exact t1.symm
      -- show that p occurs in the window at offset u.length - s
      have hdrop : (lastN k A ++ B.take k).drop (u.length - s) =
          A.drop u.length ++ B.take k := by
        rw [lastN, List.drop_append_eq_append_drop]
        have hlen1 : (A.drop (A.length - k)).length = A.length - (A.length - k) := by simp
        have hz : u.length - s - (A.drop (A.length - k)).length = 0 := by
          rw [hlen1]
          omega
        rw [hz, List.drop_drop, List.drop_zero]
        have he : A.length - k + (u.length - s) = u.length := by omega
        rw [he]
      have hBk : B.take k = B.take (p.length - (A.length - u.length)) ++
          ((B.take k).drop (p.length - (A.length - u.length))) := by
        conv_lhs => rw [← List.take_append_drop (p.length - (A.length - u.length)) (B.take k)]
        rw [List.take_take, min_eq_left (by omega)]
      refine (contains_from_iff p _).2 ⟨(lastN k A ++ B.take k).take (u.length - s),
        (B.take k).drop (p.length - (A.length - u.length)), ?_⟩
      conv_lhs => rw [← List.take_append_drop (u.length - s) (lastN k A ++ B.take k)]
      rw [hdrop, hBk, hp_pref]
      simp [List.append_assoc]

lemma lastN_of_length_le {k : ℕ} {l : List Char} (h : l.length ≤ k) : lastN k l = l := by
  rw [lastN, show l.length - k = 0 by omega, List.drop_zero]

lemma take_of_fixed_lead {k : ℕ} {X : List Char} (R : List Char) (h : k ≤ X.length) :
    (X ++ R).take k = X.take k := by
  rw [List.take_append_eq_append_take, show k - X.length = 0 by omega]
  simp

lemma contains_from_take_append' (p X A B : List Char) (k : ℕ)
    (h : contains_from p (X ++ (A ++ B).take k) = true) :
    contains_from p ((X ++ A) ++ B.take k) = true := by
  have h2 := contains_from_take_append p X A B k h
  rw [← List.append_assoc] at h2
  exact h2

lemma exists_take_self (l : List Char) : ∃ d, l = l.take 25 ++ d :=
  ⟨l.drop 25, (List.take_append_drop 25 l).symm⟩

lemma exists_take_of_lead (X R lead : List Char) (hlen : 25 ≤ X.length)
    (h : X.take 25 = lead) : ∃ d, lead = (X ++ R).take 25 ++ d :=
  ⟨[], by rw [take_of_fixed_lead R hlen, h, List.append_nil]⟩

lemma windowStep_fv {p : List Char} (F v R eF fNext : List Char)
    (hp : p ≠ []) (hp25 : p.length - 1 = 25)
    (hF : contains_from p F = false)
    (heF : lastN 25 F = eF)
    (hv25 : v.length ≤ 25) (hvp : v.length < p.length)
    (hfN : ∃ d, fNext = R.take 25 ++ d)
    (hW : contains_from p ((eF ++ v) ++ fNext) = false)
    (h : contains_from p (F ++ (v ++ R)) = true) :
    contains_from p R = true := by
  obtain ⟨d, hd⟩ := hfN
  rcases contains_from_split F (v ++ R) hp h with h1 | h1 | h1
  · rw [hF] at h1
    exact absurd h1 (by decide)
  · rw [hp25, heF] at h1
    have h2 := contains_from_take_append' p eF v R 25 h1
    have h3 := contains_from_append_left d h2
    rw [List.append_assoc ((eF ++ v)), ← hd] at h3
    rw [hW] at h3
    exact absurd h3 (by decide)
  · rcases contains_from_split v R hp h1 with h2 | h2 | h2
    · rw [contains_from_eq_false_of_lt hvp] at h2
      exact absurd h2 (by decide)
    · rw [hp25, lastN_of_length_le hv25] at h2
      have h3 := contains_from_append_left d h2
      rw [List.append_assoc v, ← hd] at h3
      have h4 := contains_from_append_right eF h3
      rw [← List.append_assoc] at h4
      rw [hW] at h4
      exact absurd h4 (by decide)
    · exact h2

lemma windowStep_ff {p : List Char} (F R eF fNext : List Char)
    (hp : p ≠ []) (hp25 : p.length - 1 = 25)
    (hF : contains_from p F = false)
    (heF : lastN 25 F = eF)
    (hfN : ∃ d, fNext = R.take 25 ++ d)
    (hW : contains_from p (eF ++ fNext) = false)
    (h : contains_from p (F ++ R) = true) :
    contains_from p R = true := by
  obtain ⟨d, hd⟩ := hfN
  rcases contains_from_split F R hp h with h1 | h1 | h1
  · rw [hF] at h1
    exact absurd h1 (by decide)
  · rw [hp25, heF] at h1
    have h3 := contains_from_append_left d h1
    rw [List.append_assoc eF, ← hd] at h3
    rw [hW] at h3
    exact absurd h3 (by decide)
  · exact h1

set_option maxRecDepth 4000

lemma total_literal_len : total_literal.toList.length = 26 := by
  with_unfolding_all rfl

lemma total_literal_ne : total_literal.toList ≠ [] := by
  intro h
  have h2 := total_literal_len
  rw [h] at h2
  simp at h2

lemma total_literal_len25 : total_literal.toList.length - 1 = 25 := by
  rw [total_literal_len]

lemma seg0_edge_eq : lastN 25 stats_seg0.toList = seg0_edge.toList := by
  with_unfolding_all rfl

lemma seg1_edge_eq : lastN 25 stats_seg1.toList = seg1_edge.toList := by
  with_unfolding_all rfl

lemma seg2_edge_eq : lastN 25 stats_seg2.toList = seg2_edge.toList := by
  with_unfolding_all rfl

lemma seg3_edge_eq : lastN 25 stats_seg3.toList = seg3_edge.toList := by
  with_unfolding_all rfl

lemma at_square_edge_eq : lastN 25 ctx_at_square.toList = at_square_edge.toList := by
  with_unfolding_all rfl

lemma weight_head_edge_eq : lastN 25 ctx_weight_head.toList = weight_head_edge.toList := by
  with_unfolding_all rfl

lemma astro_head_edge_eq : lastN 25 ctx_astro_head.toList = astro_head_edge.toList := by
  with_unfolding_all rfl

lemma mng_tail_edge_eq : lastN 25 ctx_manageable_tail.toList = mng_tail_edge.toList := by
  with_unfolding_all rfl

lemma sig_tail_edge_eq : lastN 25 ctx_significant_tail.toList = sig_tail_edge.toList := by
  with_unfolding_all rfl

lemma we_have_lastN : lastN 25 ctx_we_have.toList = ctx_we_have.toList := by
  with_unfolding_all rfl

lemma kg_open_lastN : lastN 25 ctx_kg_open.toList = ctx_kg_open.toList := by
  with_unfolding_all rfl

lemma seg1_take_eq : stats_seg1.toList.take 25 = seg1_lead.toList := by
  with_unfolding_all rfl

lemma seg2_take_eq : stats_seg2.toList.take 25 = seg2_lead.toList := by
  with_unfolding_all rfl

lemma seg3_take_eq : stats_seg3.toList.take 25 = seg3_lead.toList := by
  with_unfolding_all rfl

lemma at_square_take_eq : ctx_at_square.toList.take 25 = at_square_lead.toList := by
  with_unfolding_all rfl

lemma weight_head_take_eq : ctx_weight_head.toList.take 25 = weight_head_lead.toList := by
  with_unfolding_all rfl

lemma astro_head_take_eq : ctx_astro_head.toList.take 25 = astro_head_lead.toList := by
  with_unfolding_all rfl

lemma seg1_len_le : 25 ≤ stats_seg1.toList.length := by
  with_unfolding_all decide

lemma seg2_len_le : 25 ≤ stats_seg2.toList.length := by
  with_unfolding_all decide

lemma seg3_len_le : 25 ≤ stats_seg3.toList.length := by
  with_unfolding_all decide

lemma at_square_len_le : 25 ≤ ctx_at_square.toList.length := by
  with_unfolding_all decide

lemma weight_head_len_le : 25 ≤ ctx_weight_head.toList.length := by
  with_unfolding_all decide

lemma astro_head_len_le : 25 ≤ ctx_astro_head.toList.length := by
  with_unfolding_all decide

lemma seg0_no_lit : contains_from total_literal.toList stats_seg0.toList = false := by
  with_unfolding_all rfl

lemma seg1_no_lit : contains_from total_literal.toList stats_seg1.toList = false := by
  with_unfolding_all rfl

lemma seg2_no_lit : contains_from total_literal.toList stats_seg2.toList = false := by
  with_unfolding_all rfl

lemma seg3_no_lit : contains_from total_literal.toList stats_seg3.toList = false := by
  with_unfolding_all rfl

lemma at_square_no_lit : contains_from total_literal.toList ctx_at_square.toList = false := by
  with_unfolding_all rfl

lemma we_have_no_lit : contains_from total_literal.toList ctx_we_have.toList = false := by
  with_unfolding_all rfl

lemma mng_tail_no_lit : contains_from total_literal.toList ctx_manageable_tail.toList = false := by
  with_unfolding_all rfl

lemma sig_tail_no_lit : contains_from total_literal.toList ctx_significant_tail.toList = false := by
  with_unfolding_all rfl

lemma weight_head_no_lit : contains_from total_literal.toList ctx_weight_head.toList = false := by
  with_unfolding_all rfl

lemma kg_open_no_lit : contains_from total_literal.toList ctx_kg_open.toList = false := by
  with_unfolding_all rfl

lemma astro_head_no_lit : contains_from total_literal.toList ctx_astro_head.toList = false := by
  with_unfolding_all rfl

lemma div_close_no_lit : contains_from total_literal.toList div_close.toList = false := by
  with_unfolding_all rfl

lemma w_seg3_at : contains_from total_literal.toList
    (seg3_edge.toList ++ at_square_lead.toList) = false := by
  with_unfolding_all rfl

lemma w_seg3_wh : contains_from total_literal.toList
    (seg3_edge.toList ++ weight_head_lead.toList) = false := by
  with_unfolding_all rfl

lemma w_seg3_ah : contains_from total_literal.toList
    (seg3_edge.toList ++ astro_head_lead.toList) = false := by
  with_unfolding_all rfl

lemma w_mng_tail_div : contains_from total_literal.toList
    (mng_tail_edge.toList ++ div_close.toList) = false := by
  with_unfolding_all rfl

lemma w_sig_tail_div : contains_from total_literal.toList
    (sig_tail_edge.toList ++ div_close.toList) = false := by
  with_unfolding_all rfl

lemma tons_div_short : (ctx_tons_tail.toList ++ div_close.toList).length <
    total_literal.toList.length := by
  with_unfolding_all decide

lemma astro_tail_div_short : (ctx_astro_tail.toList ++ div_close.toList).length <
    total_literal.toList.length := by
  with_unfolding_all decide

lemma block_has_lit : contains_from total_literal.toList complete_board_block.toList = true := by
  with_unfolding_all rfl


lemma stats_flat_mng (n : ℤ) (h10 : n ≤ 10) :
    (update_visualization_stats n).toList =
      stats_seg0.toList ++ ((toString n).toList ++ (stats_seg1.toList ++
        ((format_number (calculate_grains n)).toList ++ (stats_seg2.toList ++
        ((format_number (calculate_total n)).toList ++ (stats_seg3.toList ++
        (ctx_at_square.toList ++ ((toString n).toList ++ (ctx_we_have.toList ++
        ((format_number (calculate_grains n)).toList ++ (ctx_manageable_tail.toList ++
        div_close.toList))))))))))) := by
  rw [update_visualization_stats, if_pos h10, if_neg (show ¬(n = 64) by omega),
    stats_header, context_manageable]
  simp only [String.toList, String.data_append, List.append_assoc,
    show ("" : String).data = [] from rfl, List.nil_append, List.append_nil]

lemma mng_absence (n : ℤ) (h10 : n ≤ 10) (hch : mng_checks n = true) :
    contains_total_literal (update_visualization_stats n) = false := by
  rw [mng_checks] at hch
  simp only [Bool.and_eq_true, Bool.not_eq_true', decide_eq_true_eq] at hch
  obtain ⟨⟨⟨⟨⟨⟨⟨hW1, hW2⟩, hW3⟩, hW4⟩, hW5⟩, ha⟩, hg⟩, ht⟩ := hch
  rw [contains_total_literal]
  cases hc : contains_from total_literal.toList (update_visualization_stats n).toList with
  | false => rfl
  | true =>
    exfalso
    rw [stats_flat_mng n h10] at hc
    have s1 := windowStep_fv _ _ _ _ _ total_literal_ne total_literal_len25
      seg0_no_lit seg0_edge_eq ha (by rw [total_literal_len]; omega)
      (exists_take_of_lead _ _ _ seg1_len_le seg1_take_eq) hW1 hc
    have s2 := windowStep_fv _ _ _ _ _ total_literal_ne total_literal_len25
      seg1_no_lit seg1_edge_eq hg (by rw [total_literal_len]; omega)
      (exists_take_of_lead _ _ _ seg2_len_le seg2_take_eq) hW2 s1
    have s3 := windowStep_fv _ _ _ _ _ total_literal_ne total_literal_len25
      seg2_no_lit seg2_edge_eq ht (by rw [total_literal_len]; omega)
      (exists_take_of_lead _ _ _ seg3_len_le seg3_take_eq) hW3 s2
    have s4 := windowStep_ff _ _ _ _ total_literal_ne total_literal_len25
      seg3_no_lit seg3_edge_eq
      (exists_take_of_lead _ _ _ at_square_len_le at_square_take_eq) w_seg3_at s3
    have s5 := windowStep_fv _ _ _ _ _ total_literal_ne total_literal_len25
      at_square_no_lit at_square_edge_eq ha (by rw [total_literal_len]; omega)
      (exists_take_self _) hW4 s4
    have s6 := windowStep_fv _ _ _ _ _ total_literal_ne total_literal_len25
      we_have_no_lit we_have_lastN hg (by rw [total_literal_len]; omega)
      (exists_take_self _) hW5 s5
    have s7 := windowStep_ff _ _ _ _ total_literal_ne total_literal_len25
      mng_tail_no_lit mng_tail_edge_eq (exists_take_self _) w_mng_tail_div s6
    rw [div_close_no_lit] at s7
    exact absurd s7 (by decide)



lemma stats_flat_sig (n : ℤ) (h10 : 10 < n) (h20 : n ≤ 20) :
    (update_visualization_stats n).toList =
      stats_seg0.toList ++ ((toString n).toList ++ (stats_seg1.toList ++
        ((format_number (calculate_grains n)).toList ++ (stats_seg2.toList ++
        ((format_number (calculate_total n)).toList ++ (stats_seg3.toList ++
        (ctx_at_square.toList ++ ((toString n).toList ++ (ctx_we_have.toList ++
        ((format_number (calculate_grains n)).toList ++ (ctx_significant_tail.toList ++
        div_close.toList))))))))))) := by
  rw [update_visualization_stats, if_neg (show ¬(n ≤ 10) by omega), if_pos h20,
    if_neg (show ¬(n = 64) by omega), stats_header, context_significant]
  simp only [String.toList, String.data_append, List.append_assoc,
    show ("" : String).data = [] from rfl, List.nil_append, List.append_nil]

lemma sig_absence (n : ℤ) (h10 : 10 < n) (h20 : n ≤ 20) (hch : sig_checks n = true) :
    contains_total_literal (update_visualization_stats n) = false := by
  rw [sig_checks] at hch
  simp only [Bool.and_eq_true, Bool.not_eq_true', decide_eq_true_eq] at hch
  obtain ⟨⟨⟨⟨⟨⟨⟨hW1, hW2⟩, hW3⟩, hW4⟩, hW5⟩, ha⟩, hg⟩, ht⟩ := hch
  rw [contains_total_literal]
  cases hc : contains_from total_literal.toList (update_visualization_stats n).toList with
  | false => rfl
  | true =>
    exfalso
    rw [stats_flat_sig n h10 h20] at hc
    have s1 := windowStep_fv _ _ _ _ _ total_literal_ne total_literal_len25
      seg0_no_lit seg0_edge_eq ha (by rw [total_literal_len]; omega)
      (exists_take_of_lead _ _ _ seg1_len_le seg1_take_eq) hW1 hc
    have s2 := windowStep_fv _ _ _ _ _ total_literal_ne total_literal_len25
      seg1_no_lit seg1_edge_eq hg (by rw [total_literal_len]; omega)
      (exists_take_of_lead _ _ _ seg2_len_le seg2_take_eq) hW2 s1
    have s3 := windowStep_fv _ _ _ _ _ total_literal_ne total_literal_len25
      seg2_no_lit seg2_edge_eq ht (by rw [total_literal_len]; omega)
      (exists_take_of_lead _ _ _ seg3_len_le seg3_take_eq) hW3 s2
    have s4 := windowStep_ff _ _ _ _ total_literal_ne total_literal_len25
      seg3_no_lit seg3_edge_eq
      (exists_take_of_lead _ _ _ at_square_len_le at_square_take_eq) w_seg3_at s3
    have s5 := windowStep_fv _ _ _ _ _ total_literal_ne total_literal_len25
      at_square_no_lit at_square_edge_eq ha (by rw [total_literal_len]; omega)
      (exists_take_self _) hW4 s4
    have s6 := windowStep_fv _ _ _ _ _ total_literal_ne total_literal_len25
      we_have_no_lit we_have_lastN hg (by rw [total_literal_len]; omega)
      (exists_take_self _) hW5 s5
    have s7 := windowStep_ff _ _ _ _ total_literal_ne total_literal_len25
      sig_tail_no_lit sig_tail_edge_eq (exists_take_self _) w_sig_tail_div s6
    rw [div_close_no_lit] at s7
    exact absurd s7 (by decide)


lemma stats_flat_wgt (n : ℤ) (h20 : 20 < n) (h30 : n ≤ 30) :
    (update_visualization_stats n).toList =
      stats_seg0.toList ++ ((toString n).toList ++ (stats_seg1.toList ++
        ((format_number (calculate_grains n)).toList ++ (stats_seg2.toList ++
        ((format_number (calculate_total n)).toList ++ (stats_seg3.toList ++
        (ctx_weight_head.toList ++
        ((format_number (calculate_total n * (2 / 100000))).toList ++
        (ctx_kg_open.toList ++
        ((format_number (calculate_total n * (2 / 100000) / 1000)).toList ++
        (ctx_tons_tail.toList ++ div_close.toList))))))))))) := by
  rw [update_visualization_stats, if_neg (show ¬(n ≤ 10) by omega),
    if_neg (show ¬(n ≤ 20) by omega), if_pos h30,
    if_neg (show ¬(n = 64) by omega), stats_header, context_weight]
  simp only [String.toList, String.data_append, List.append_assoc,
    show ("" : String).data = [] from rfl, List.nil_append, List.append_nil]

lemma wgt_absence (n : ℤ) (h20 : 20 < n) (h30 : n ≤ 30) (hch : wgt_checks n = true) :
    contains_total_literal (update_visualization_stats n) = false := by
  rw [wgt_checks] at hch
  simp only [Bool.and_eq_true, Bool.not_eq_true', decide_eq_true_eq] at hch
  obtain ⟨⟨⟨⟨⟨⟨⟨⟨⟨hW1, hW2⟩, hW3⟩, hW4⟩, hW5⟩, ha⟩, hg⟩, ht⟩, hw1⟩, hw2⟩ := hch
  rw [contains_total_literal]
  cases hc : contains_from total_literal.toList (update_visualization_stats n).toList with
  | false => rfl
  | true =>
    exfalso
    rw [stats_flat_wgt n h20 h30] at hc
    have s1 := windowStep_fv _ _ _ _ _ total_literal_ne total_literal_len25
      seg0_no_lit seg0_edge_eq ha (by rw [total_literal_len]; omega)
      (exists_take_of_lead _ _ _ seg1_len_le seg1_take_eq) hW1 hc
    have s2 := windowStep_fv _ _ _ _ _ total_literal_ne total_literal_len25
      seg1_no_lit seg1_edge_eq hg (by rw [total_literal_len]; omega)
      (exists_take_of_lead _ _ _ seg2_len_le seg2_take_eq) hW2 s1
    have s3 := windowStep_fv _ _ _ _ _ total_literal_ne total_literal_len25
      seg2_no_lit seg2_edge_eq ht (by rw [total_literal_len]; omega)
      (exists_take_of_lead _ _ _ seg3_len_le seg3_take_eq) hW3 s2
    have s4 := windowStep_ff _ _ _ _ total_literal_ne total_literal_len25
      seg3_no_lit seg3_edge_eq
      (exists_take_of_lead _ _ _ weight_head_len_le weight_head_take_eq) w_seg3_wh s3
    have s5 := windowStep_fv _ _ _ _ _ total_literal_ne total_literal_len25
      weight_head_no_lit weight_head_edge_eq hw1 (by rw [total_literal_len]; omega)
      (exists_take_self _) hW4 s4
    have s6 := windowStep_fv _ _ _ _ _ total_literal_ne total_literal_len25
      kg_open_no_lit kg_open_lastN hw2 (by rw [total_literal_len]; omega)
      (exists_take_self _) hW5 s5
    rw [contains_from_eq_false_of_lt tons_div_short] at s6
    exact absurd s6 (by decide)


lemma stats_flat_astro (n : ℤ) (h30 : 30 < n) (h64 : n ≠ 64) :
    (update_visualization_stats n).toList =
      stats_seg0.toList ++ ((toString n).toList ++ (stats_seg1.toList ++
        ((format_number (calculate_grains n)).toList ++ (stats_seg2.toList ++
        ((format_number (calculate_total n)).toList ++ (stats_seg3.toList ++
        (ctx_astro_head.toList ++ ((format_number (calculate_grains n)).toList ++
        (ctx_astro_tail.toList ++ div_close.toList))))))))) := by
  rw [update_visualization_stats, if_neg (show ¬(n ≤ 10) by omega),
    if_neg (show ¬(n ≤ 20) by omega), if_neg (show ¬(n ≤ 30) by omega),
    if_neg h64, stats_header, context_astronomical]
  simp only [String.toList, String.data_append, List.append_assoc,
    show ("" : String).data = [] from rfl, List.nil_append, List.append_nil]

lemma astro_absence (n : ℤ) (h30 : 30 < n) (h64 : n ≠ 64) (hch : astro_checks n = true) :
    contains_total_literal (update_visualization_stats n) = false := by
  rw [astro_checks] at hch
  simp only [Bool.and_eq_true, Bool.not_eq_true', decide_eq_true_eq] at hch
  obtain ⟨⟨⟨⟨⟨⟨hW1, hW2⟩, hW3⟩, hW4⟩, ha⟩, hg⟩, ht⟩ := hch
  rw [contains_total_literal]
  cases hc : contains_from total_literal.toList (update_visualization_stats n).toList with
  | false => rfl
  | true =>
    exfalso
    rw [stats_flat_astro n h30 h64] at hc
    have s1 := windowStep_fv _ _ _ _ _ total_literal_ne total_literal_len25
      seg0_no_lit seg0_edge_eq ha (by rw [total_literal_len]; omega)
      (exists_take_of_lead _ _ _ seg1_len_le seg1_take_eq) hW1 hc
    have s2 := windowStep_fv _ _ _ _ _ total_literal_ne total_literal_len25
      seg1_no_lit seg1_edge_eq hg (by rw [total_literal_len]; omega)
      (exists_take_of_lead _ _ _ seg2_len_le seg2_take_eq) hW2 s1
    have s3 := windowStep_fv _ _ _ _ _ total_literal_ne total_literal_len25
      seg2_no_lit seg2_edge_eq ht (by rw [total_literal_len]; omega)
      (exists_take_of_lead _ _ _ seg3_len_le seg3_take_eq) hW3 s2
    have s4 := windowStep_ff _ _ _ _ total_literal_ne total_literal_len25
      seg3_no_lit seg3_edge_eq
      (exists_take_of_lead _ _ _ astro_head_len_le astro_head_take_eq) w_seg3_ah s3
    have s5 := windowStep_fv _ _ _ _ _ total_literal_ne total_literal_len25
      astro_head_no_lit astro_head_edge_eq hg (by rw [total_literal_len]; omega)
      (exists_take_self _) hW4 s4
    rw [contains_from_eq_false_of_lt astro_tail_div_short] at s5
    exact absurd s5 (by decide)

lemma stats_64_eq : update_visualization_stats 64 =
    ((stats_header 64 ++ context_astronomical 64) ++ complete_board_block) ++ div_close := by
  rw [update_visualization_stats, if_neg (by norm_num), if_neg (by norm_num),
    if_neg (by norm_num), if_pos rfl]

lemma presence_64 : contains_total_literal (update_visualization_stats 64) = true := by
  rw [contains_total_literal, stats_64_eq]
  simp only [String.toList, String.data_append]
  apply contains_from_append_left
  apply contains_from_append_right
  exact block_has_lit




set_option maxHeartbeats 3200000

/-- C9: for every square index `n` in `[1,64]` the HTML summary built by
`update_visualization` selects its narrative block by the fixed thresholds
`n ≤ 10`, `n ≤ 20`, `n ≤ 30`, `n > 30`, and contains the literal string
`"18,446,744,073,709,551,615"` if and only if `n = 64`. -/
theorem stats_tiers_and_complete_board (n : ℤ) (h1 : 1 ≤ n) (h2 : n ≤ 64) :
    (n ≤ 10 → update_visualization_stats n =
      stats_header n ++ context_manageable n ++ div_close) ∧
    (10 < n → n ≤ 20 → update_visualization_stats n =
      stats_header n ++ context_significant n ++ div_close) ∧
    (20 < n → n ≤ 30 → update_visualization_stats n =
      stats_header n ++ context_weight n ++ div_close) ∧
    (30 < n → update_visualization_stats n =
      stats_header n ++ context_astronomical n ++
      (if n = 64 then complete_board_block else "") ++ div_close) ∧
    (contains_total_literal (update_visualization_stats n) = true ↔ n = 64) := by
  have hb : contains_total_literal (update_visualization_stats n) = (n == 64) := by
    rcases eq_or_ne n 64 with rfl | hne
    · rw [presence_64]
      rfl
    · have hbeq : (n == 64) = false := by
        simp [hne]
      rw [hbeq]
      interval_cases n <;>
        first
          | (exact absurd rfl hne)
          | (refine mng_absence _ ?_ ?_
             · norm_num
             · with_unfolding_all rfl)
          | (refine sig_absence _ ?_ ?_ ?_
             · norm_num
             · norm_num
             · with_unfolding_all rfl)
          | (refine wgt_absence _ ?_ ?_ ?_
             · norm_num
             · norm_num
             · with_unfolding_all rfl)
          | (refine astro_absence _ ?_ ?_ ?_
             · norm_num
             · norm_num
             · with_unfolding_all rfl)
  refine ⟨fun ha => ?_, fun ha hc => ?_, fun ha hc => ?_, fun ha => ?_, ?_⟩
  · simp only [update_visualization_stats]
    rw [if_pos ha, if_neg (by omega : ¬(n = 64)), String.append_empty]
  · simp only [update_visualization_stats]
    rw [if_neg (by omega : ¬(n ≤ 10)), if_pos hc,
      if_neg (by omega : ¬(n = 64)), String.append_empty]
  · simp only [update_visualization_stats]
    rw [if_neg (by omega : ¬(n ≤ 10)), if_neg (by omega : ¬(n ≤ 20)), if_pos hc,
      if_neg (by omega : ¬(n = 64)), String.append_empty]
  · simp only [update_visualization_stats]
    rw [if_neg (by omega : ¬(n ≤ 10)), if_neg (by omega : ¬(n ≤ 20)),
      if_neg (by omega : ¬(n ≤ 30))]
  · rw [hb]
    simp

theorem stats_tiers_and_complete_board_witness :
    (1 : ℤ) ≤ 64 ∧ (64 : ℤ) ≤ 64 ∧
    (((64 : ℤ) ≤ 10 → update_visualization_stats 64 =
       stats_header 64 ++ context_manageable 64 ++ div_close) ∧
     ((10 : ℤ) < 64 → (64 : ℤ) ≤ 20 → update_visualization_stats 64 =
       stats_header 64 ++ context_significant 64 ++ div_close) ∧
     ((20 : ℤ) < 64 → (64 : ℤ) ≤ 30 → update_visualization_stats 64 =
       stats_header 64 ++ context_weight 64 ++ div_close) ∧
     ((30 : ℤ) < 64 → update_visualization_stats 64 =
       stats_header 64 ++ context_astronomical 64 ++
       (if (64 : ℤ) = 64 then complete_board_block else "") ++ div_close) ∧
     (contains_total_literal (update_visualization_stats 64) = true ↔ (64 : ℤ) = 64)) :=
  ⟨by norm_num, by norm_num,
   stats_tiers_and_complete_board 64 (by norm_num) (by norm_num)⟩
